import Mathlib

/-!
Verification of `openedx/features/calendar_sync/ics.py`: generation of
iCalendar (.ics) documents for course assignments and course start dates.

The module under verification is a thin, pure formatting layer.  External
collaborators (the assignment provider `get_course_assignments`, the site
configuration lookup `get_value`, Django settings, `gettext` localization,
and the wall clock `datetime.now(pytz.utc)`) are made explicit parameters,
so every function here is the pure body of the corresponding Python
function with its side-effecting reads lifted to arguments.
-/

namespace CalendarSync

/-- A timezone-aware UTC timestamp, the shape of the `datetime` values the
module passes through (it never computes with them). -/
structure Datetime where
  year : Nat
  month : Nat
  day : Nat
  hour : Nat
  minute : Nat
  second : Nat
deriving DecidableEq, Repr

/-- Modelled from the spec: the serialization of a UTC timestamp into the
calendar document (`DTSTAMP:<creation timestamp, UTC>`); the actual
formatting is done by the external `icalendar` library. Zero-pads
two-digit fields, basic iCalendar UTC form. -/
def pad2 (n : Nat) : String :=
  if n < 10 then "0" ++ toString n else toString n

/-- Modelled from the spec: render a `Datetime` as an iCalendar UTC
date-time string. -/
def Datetime.format (d : Datetime) : String :=
  toString d.year ++ pad2 d.month ++ pad2 d.day ++ "T" ++
    pad2 d.hour ++ pad2 d.minute ++ pad2 d.second ++ "Z"

/-- The identifier builder `get_calendar_event_id(user_id, block_key,
date_type, hostname)`: creates a unique event id, `'{}.{}.{}@{}'.format(...)`. `user_id` is an
int in Python (non-negative in practice: a user id or the constant 0),
modelled as `Nat`; Python's `format` applies `str` to it. -/
def get_calendar_event_id (user_id : Nat) (block_key date_type hostname : String) : String :=
  toString user_id ++ "." ++ block_key ++ "." ++ date_type ++ "@" ++ hostname

/-- The spec's formula, stated with an explicit join: the four values
joined with `.` and `@` exactly as `"{subject-id}.{reference-key}.{date-type}@{namespace}"`.
Stated independently of the source definition, for the refinement claim C1. -/
def eventIdSpec (user_id : Nat) (block_key date_type hostname : String) : String :=
  String.intercalate "." [toString user_id, block_key, date_type] ++ "@" ++ hostname

/-- One VEVENT: the fields `generate_ics_for_event` adds to the
`icalendar.Event` object, in the order added. `duration` is in seconds
(the source passes `timedelta(0)`); the organizer is a `mailto:` address
with the display name attached as the `CN` parameter. -/
structure Event where
  uid : String
  dtstamp : Datetime
  organizer_name : String
  organizer_email : String
  summary : String
  description : String
  dtstart : Datetime
  duration : Nat
  transp : String
deriving DecidableEq, Repr

/-- The calendar container built by `generate_ics_for_event`: the fields
added to the `icalendar.Calendar` object plus its components. -/
structure Calendar where
  prodid : String
  version : String
  method : String
  components : List Event
deriving DecidableEq, Repr

/-- Modelled from the spec: the lines of one serialized VEVENT, following
the structural shape in the spec (one event sub-object with unique id,
creation timestamp, organizer with CN parameter, summary, description,
start, duration, transparency); the byte-level serialization is done by
the external `icalendar` library. -/
def Event.lines (e : Event) : List String :=
  [ "BEGIN:VEVENT",
    "UID:" ++ e.uid,
    "DTSTAMP:" ++ e.dtstamp.format,
    "ORGANIZER;CN=" ++ e.organizer_name ++ ":mailto:" ++ e.organizer_email,
    "SUMMARY:" ++ e.summary,
    "DESCRIPTION:" ++ e.description,
    "DTSTART:" ++ e.dtstart.format,
    "DURATION:PT" ++ toString e.duration ++ "S",
    "TRANSP:" ++ e.transp,
    "END:VEVENT" ]

/-- Modelled from the spec: the lines of a serialized calendar document
(one container wrapping its events), per the spec's structural shape. -/
def Calendar.lines (c : Calendar) : List String :=
  ("BEGIN:VCALENDAR" ::
    ("PRODID:" ++ c.prodid) ::
    ("VERSION:" ++ c.version) ::
    ("METHOD:" ++ c.method) ::
    (c.components.map Event.lines).flatten) ++ ["END:VCALENDAR"]

/-- Modelled from the spec: `cal.to_ical()`, the byte sequence of the
document; lines are joined with CRLF as in the calendar interchange
format. -/
def Calendar.to_ical (c : Calendar) : String :=
  String.intercalate "\r\n" c.lines

/-- The `Calendar` value built by the body of `generate_ics_for_event`
(the `event.add` / `cal.add` calls), before serialization. -/
def eventCalendar (uid title description : String) (now start : Datetime)
    (organizer_name organizer_email : String) : Calendar :=
  { prodid := "-//Open edX//calendar_sync//EN",
    version := "2.0",
    method := "REQUEST",
    components :=
      [{ uid := uid,
         dtstamp := now,
         organizer_name := organizer_name,
         organizer_email := organizer_email,
         summary := title,
         description := description,
         dtstart := start,
         duration := 0,
         transp := "TRANSPARENT" }] }

/-- The single-event serializer `generate_ics_for_event(uid, title,
description, now, start, organizer_name, organizer_email)`: builds the
event and calendar and returns `cal.to_ical()`. -/
def generate_ics_for_event (uid title description : String) (now start : Datetime)
    (organizer_name organizer_email : String) : String :=
  (eventCalendar uid title description now start organizer_name organizer_email).to_ical

/-- One assignment as produced by the external provider
`get_course_assignments`: a title, a due date, and a block key (the
source uses `str(assignment.block_key)`, so the key is kept as the string
it serializes to). -/
structure Assignment where
  title : String
  date : Datetime
  block_key : String
deriving DecidableEq, Repr

/-- The course fields the module reads: `course.id` (as the string
`str(course.id)` yields), `course.display_name_with_default`, and
`course.start_date`. -/
structure Course where
  id : String
  display_name_with_default : String
  start_date : Datetime
deriving DecidableEq, Repr

/-- The user field the module reads: `user.id`. -/
structure User where
  id : Nat
deriving DecidableEq, Repr

/-- The request field the module reads: `request.site.domain`. -/
structure Request where
  site_domain : String
deriving DecidableEq, Repr

/-- The assignment expander `generate_ics_for_course_assignments(course,
user, request)`.  The
external reads are explicit parameters: `assignments` is the list
returned by `get_course_assignments(course.id, user, request)`,
`platform_name` / `platform_email` the values resolved from site
configuration, and `now` the single `datetime.now(pytz.utc)` captured
before the generator is built.  The description is the localized
`'{assignment} is due for {course}.'` with the title and course display
name substituted (localization is the external `gettext`, modelled as
identity on the English template per the spec's concrete scenario). -/
def generate_ics_for_course_assignments (course : Course) (user : User) (request : Request)
    (assignments : List Assignment) (platform_name platform_email : String)
    (now : Datetime) : List String :=
  assignments.map (fun assignment =>
    generate_ics_for_event
      (get_calendar_event_id user.id assignment.block_key "due" request.site_domain)
      assignment.title
      (assignment.title ++ " is due for " ++ course.display_name_with_default ++ ".")
      now
      assignment.date
      platform_name
      platform_email)

/-- The course-start builder `generate_ics_for_course_start(course,
request)`, with the external
reads (site configuration values and `datetime.now(pytz.utc)`) as
explicit parameters.  Returns one document, not a sequence. -/
def generate_ics_for_course_start (course : Course) (request : Request)
    (platform_name platform_email : String) (now : Datetime) : String :=
  generate_ics_for_event
    (get_calendar_event_id 0 course.id "start" request.site_domain)
    (course.display_name_with_default ++ " Begins")
    ""
    now
    course.start_date
    platform_name
    platform_email

/-!
## Helper lemmas

Injectivity of the decimal rendering of `Nat` (the `str(user_id)` step of
the identifier builder), and character-list views of strings.
-/

/-- The numeric value of a decimal digit character. -/
def digitVal (c : Char) : Nat := c.toNat - 48

/-- The number denoted by a list of decimal digit characters. -/
def listVal (l : List Char) : Nat := l.foldl (fun a c => 10 * a + digitVal c) 0

/-- The first character of a string, if any. -/
def firstChar (s : String) : Option Char := s.data.head?

theorem digitVal_digitChar : ∀ d, d < 10 → digitVal (Nat.digitChar d) = d := by decide

theorem toDigitsCore_acc (fuel : Nat) : ∀ (n : Nat) (ds : List Char),
    Nat.toDigitsCore 10 fuel n ds = Nat.toDigitsCore 10 fuel n [] ++ ds := by
  induction fuel with
  | zero => intro n ds; simp [Nat.toDigitsCore]
  | succ fuel ih =>
    intro n ds
    simp only [Nat.toDigitsCore]
    by_cases h : n / 10 = 0
    · simp [h]
    · simp only [if_neg h]
      rw [ih (n / 10) [Nat.digitChar (n % 10)],
          ih (n / 10) (Nat.digitChar (n % 10) :: ds), List.append_assoc]
      rfl

theorem listVal_toDigitsCore (fuel : Nat) : ∀ n : Nat, n < 10 ^ fuel →
    listVal (Nat.toDigitsCore 10 fuel n []) = n := by
  induction fuel with
  | zero => intro n h; interval_cases n; simp [Nat.toDigitsCore, listVal]
  | succ fuel ih =>
    intro n h
    simp only [Nat.toDigitsCore]
    by_cases h0 : n / 10 = 0
    · have hn : n < 10 := by omega
      simp [h0, listVal, Nat.mod_eq_of_lt hn, digitVal_digitChar n hn]
    · simp only [if_neg h0]
      rw [toDigitsCore_acc]
      have hdiv : n / 10 < 10 ^ fuel := by
        rw [pow_succ] at h
        exact Nat.div_lt_of_lt_mul (by omega)
      have := ih (n / 10) hdiv
      simp only [listVal, List.foldl_append] at *
      rw [this]
      simp [digitVal_digitChar (n % 10) (Nat.mod_lt n (by norm_num))]
      omega

theorem listVal_repr (n : Nat) : listVal (Nat.repr n).data = n := by
  have h : n < 10 ^ (n + 1) := by
    calc n < 2 ^ n := Nat.lt_two_pow n
    _ ≤ 10 ^ n := Nat.pow_le_pow_left (by norm_num) n
    _ ≤ 10 ^ (n + 1) := Nat.pow_le_pow_right (by norm_num) (Nat.le_succ n)
  have := listVal_toDigitsCore (n + 1) n h
  simpa [Nat.repr, Nat.toDigits, List.asString] using this

theorem repr_injective {m n : Nat} (h : Nat.repr m = Nat.repr n) : m = n := by
  have := congrArg (fun s => listVal s.data) h
  simpa [listVal_repr] using this

theorem string_data_inj {s t : String} (h : s.data = t.data) : s = t := by
  cases s
  cases t
  simp only at h
  rw [h]

theorem ne_of_firstChar {s t : String} (h : firstChar s ≠ firstChar t) : s ≠ t :=
  fun he => h (congrArg firstChar he)

theorem firstChar_append (s t : String) : firstChar (s ++ t) = (firstChar s).or (firstChar t) := by
  simp [firstChar, String.data_append]

theorem line_ne_begin_vevent (p s : String) (c : Char) (hp : firstChar p = some c)
    (hc : c ≠ 'B') : p ++ s ≠ "BEGIN:VEVENT" := by
  apply ne_of_firstChar
  simp [firstChar_append, hp]
  simpa [firstChar] using hc

/-- Character-list view of the identifier built by `get_calendar_event_id`. -/
theorem eventId_data (u : Nat) (bk dt hn : String) :
    (get_calendar_event_id u bk dt hn).data =
      (Nat.repr u).data ++ ['.'] ++ bk.data ++ ['.'] ++ dt.data ++ ['@'] ++ hn.data := by
  simp [get_calendar_event_id, toString]

theorem eventId_cancel_user (u u' : Nat) (bk dt hn : String)
    (h : get_calendar_event_id u bk dt hn = get_calendar_event_id u' bk dt hn) : u = u' := by
  have hd := congrArg String.data h
  rw [eventId_data, eventId_data] at hd
  simp only [List.append_assoc] at hd
  exact repr_injective (string_data_inj (List.append_cancel_right hd))

theorem eventId_cancel_block (u : Nat) (bk bk' dt hn : String)
    (h : get_calendar_event_id u bk dt hn = get_calendar_event_id u bk' dt hn) : bk = bk' := by
  have hd := congrArg String.data h
  rw [eventId_data, eventId_data] at hd
  simp only [List.append_assoc] at hd
  have h1 := List.append_cancel_left hd
  simp only [List.cons_append, List.nil_append, List.cons.injEq, true_and] at h1
  exact string_data_inj (List.append_cancel_right h1)

theorem eventId_cancel_type (u : Nat) (bk dt dt' hn : String)
    (h : get_calendar_event_id u bk dt hn = get_calendar_event_id u bk dt' hn) : dt = dt' := by
  have hd := congrArg String.data h
  rw [eventId_data, eventId_data] at hd
  simp only [List.append_assoc] at hd
  have h1 := List.append_cancel_left hd
  simp only [List.cons_append, List.nil_append, List.cons.injEq, true_and] at h1
  have h2 := List.append_cancel_left h1
  simp only [List.cons.injEq, true_and] at h2
  exact string_data_inj (List.append_cancel_right h2)

theorem eventId_cancel_host (u : Nat) (bk dt hn hn' : String)
    (h : get_calendar_event_id u bk dt hn = get_calendar_event_id u bk dt hn') : hn = hn' := by
  have hd := congrArg String.data h
  rw [eventId_data, eventId_data] at hd
  simp only [List.append_assoc] at hd
  have h1 := List.append_cancel_left hd
  simp only [List.cons_append, List.nil_append, List.cons.injEq, true_and] at h1
  have h2 := List.append_cancel_left h1
  simp only [List.cons.injEq, true_and] at h2
  have h3 := List.append_cancel_left h2
  simp only [List.cons.injEq, true_and] at h3
  exact string_data_inj h3

/-!
## Claims
-/

/-- C1: for every input tuple, `get_calendar_event_id` returns exactly the
string obtained by joining the four values as
`"{user_id}.{block_key}.{date_type}@{hostname}"`, with no validation or
transformation of the inputs. -/
theorem get_calendar_event_id_matches_spec (user_id : Nat)
    (block_key date_type hostname : String) :
    get_calendar_event_id user_id block_key date_type hostname
      = eventIdSpec user_id block_key date_type hostname := rfl

/-- C8: the identifier builder is deterministic (definitionally, being a
pure function of its arguments) and injective in each single field:
changing exactly one of (subject-id, reference-key, date-type, namespace)
while holding the other three fixed changes the output string. -/
theorem event_id_single_field_injective (u u' : Nat) (bk bk' dt dt' hn hn' : String) :
    get_calendar_event_id u bk dt hn = get_calendar_event_id u bk dt hn
    ∧ (u ≠ u' → get_calendar_event_id u bk dt hn ≠ get_calendar_event_id u' bk dt hn)
    ∧ (bk ≠ bk' → get_calendar_event_id u bk dt hn ≠ get_calendar_event_id u bk' dt hn)
    ∧ (dt ≠ dt' → get_calendar_event_id u bk dt hn ≠ get_calendar_event_id u bk dt' hn)
    ∧ (hn ≠ hn' → get_calendar_event_id u bk dt hn ≠ get_calendar_event_id u bk dt hn') :=
  ⟨rfl,
   fun hne h => hne (eventId_cancel_user _ _ _ _ _ h),
   fun hne h => hne (eventId_cancel_block _ _ _ _ _ h),
   fun hne h => hne (eventId_cancel_type _ _ _ _ _ h),
   fun hne h => hne (eventId_cancel_host _ _ _ _ _ h)⟩

/-- Witness for C8 at concrete inputs: each single-field change makes a
different identifier. -/
theorem event_id_single_field_injective_witness :
    get_calendar_event_id 42 "b" "due" "example.org" ≠ get_calendar_event_id 41 "b" "due" "example.org"
    ∧ get_calendar_event_id 42 "b" "due" "example.org" ≠ get_calendar_event_id 42 "c" "due" "example.org"
    ∧ get_calendar_event_id 42 "b" "due" "example.org" ≠ get_calendar_event_id 42 "b" "start" "example.org"
    ∧ get_calendar_event_id 42 "b" "due" "example.org" ≠ get_calendar_event_id 42 "b" "due" "example.com" :=
  ⟨(event_id_single_field_injective 42 41 "b" "b" "due" "due" "example.org" "example.org").2.1 (by decide),
   (event_id_single_field_injective 42 42 "b" "c" "due" "due" "example.org" "example.org").2.2.1 (by decide),
   (event_id_single_field_injective 42 42 "b" "b" "due" "start" "example.org" "example.org").2.2.2.1 (by decide),
   (event_id_single_field_injective 42 42 "b" "b" "due" "due" "example.org" "example.com").2.2.2.2 (by decide)⟩

/-- C9: the identifier builder is not injective as a function of the
whole tuple: a reference-key containing a dot can shift content into the
date-type position, so two distinct tuples collide on the same
identifier string. -/
theorem event_id_not_globally_injective :
    get_calendar_event_id 1 "a.b" "c" "h" = get_calendar_event_id 1 "a" "b.c" "h"
    ∧ "a.b" ≠ "a" ∧ "c" ≠ "b.c" := by decide

/-- C2: for every assignment processed by the assignment expander, the
generated event's identifier is built from (the requesting user's id, the
assignment's block reference, the fixed tag "due", the requesting site's
domain), its title is the assignment title, its description is the
sentence with the assignment title and course display name substituted,
and its start timestamp is the assignment's due date; for user id 42,
block reference "block-v1:abc" and site domain "example.org" the
identifier is "42.block-v1:abc.due@example.org". -/
theorem assignment_event_fields (course : Course) (user : User) (request : Request)
    (assignments : List Assignment) (platform_name platform_email : String)
    (now : Datetime) (i : Nat) (h : i < assignments.length) :
    (generate_ics_for_course_assignments course user request assignments
        platform_name platform_email now)[i]? =
      some (generate_ics_for_event
        (get_calendar_event_id user.id (assignments[i]).block_key "due" request.site_domain)
        (assignments[i]).title
        ((assignments[i]).title ++ " is due for " ++ course.display_name_with_default ++ ".")
        now (assignments[i]).date platform_name platform_email)
    ∧ get_calendar_event_id 42 "block-v1:abc" "due" "example.org"
        = "42.block-v1:abc.due@example.org" := by
  refine ⟨?_, by decide⟩
  simp [generate_ics_for_course_assignments, List.getElem?_map, List.getElem?_eq_getElem h]

/-- Witness for C2: the spec's concrete scenario (user 42, site
example.org, one assignment "HW1" due 2024-03-01 in course "CS 101"). -/
theorem assignment_event_fields_witness :
    0 < ([⟨"HW1", ⟨2024, 3, 1, 0, 0, 0⟩, "block-v1:abc"⟩] : List Assignment).length
    ∧ ((generate_ics_for_course_assignments
          ⟨"course-v1:edX+CS101+2024", "CS 101", ⟨2024, 1, 10, 0, 0, 0⟩⟩
          ⟨42⟩ ⟨"example.org"⟩
          [⟨"HW1", ⟨2024, 3, 1, 0, 0, 0⟩, "block-v1:abc"⟩]
          "Open edX" "registration@example.org" ⟨2024, 2, 1, 0, 0, 0⟩)[0]? =
        some (generate_ics_for_event
          (get_calendar_event_id 42 "block-v1:abc" "due" "example.org")
          "HW1" ("HW1" ++ " is due for " ++ "CS 101" ++ ".")
          ⟨2024, 2, 1, 0, 0, 0⟩ ⟨2024, 3, 1, 0, 0, 0⟩
          "Open edX" "registration@example.org")
      ∧ get_calendar_event_id 42 "block-v1:abc" "due" "example.org"
          = "42.block-v1:abc.due@example.org") :=
  ⟨by decide,
   assignment_event_fields
     ⟨"course-v1:edX+CS101+2024", "CS 101", ⟨2024, 1, 10, 0, 0, 0⟩⟩
     ⟨42⟩ ⟨"example.org"⟩
     [⟨"HW1", ⟨2024, 3, 1, 0, 0, 0⟩, "block-v1:abc"⟩]
     "Open edX" "registration@example.org" ⟨2024, 2, 1, 0, 0, 0⟩ 0 (by decide)⟩

/-- C3: the course-start builder produces exactly one serialized document
(a single byte string, never a sequence), whose identifier is built from
(the constant 0, the course's reference string, the fixed tag "start",
the requesting site's domain), whose title is "{course} Begins" with the
course display name substituted, whose description is the empty string,
and whose start timestamp is the course start date. -/
theorem course_start_builder_fields (course : Course) (request : Request)
    (platform_name platform_email : String) (now : Datetime) :
    generate_ics_for_course_start course request platform_name platform_email now
      = (eventCalendar (get_calendar_event_id 0 course.id "start" request.site_domain)
          (course.display_name_with_default ++ " Begins") "" now course.start_date
          platform_name platform_email).to_ical
    ∧ (eventCalendar (get_calendar_event_id 0 course.id "start" request.site_domain)
          (course.display_name_with_default ++ " Begins") "" now course.start_date
          platform_name platform_email).components.length = 1
    ∧ (eventCalendar (get_calendar_event_id 0 course.id "start" request.site_domain)
          (course.display_name_with_default ++ " Begins") "" now course.start_date
          platform_name platform_email).components.map Event.uid
        = ["0." ++ course.id ++ ".start@" ++ request.site_domain]
    ∧ (eventCalendar (get_calendar_event_id 0 course.id "start" request.site_domain)
          (course.display_name_with_default ++ " Begins") "" now course.start_date
          platform_name platform_email).components.map Event.summary
        = [course.display_name_with_default ++ " Begins"]
    ∧ (eventCalendar (get_calendar_event_id 0 course.id "start" request.site_domain)
          (course.display_name_with_default ++ " Begins") "" now course.start_date
          platform_name platform_email).components.map Event.description = [""]
    ∧ (eventCalendar (get_calendar_event_id 0 course.id "start" request.site_domain)
          (course.display_name_with_default ++ " Begins") "" now course.start_date
          platform_name platform_email).components.map Event.dtstart = [course.start_date] := by
  have huid : get_calendar_event_id 0 course.id "start" request.site_domain
      = "0." ++ course.id ++ ".start@" ++ request.site_domain := by
    apply string_data_inj
    simp [get_calendar_event_id, toString, List.append_assoc,
      show (Nat.repr 0).data = ['0'] from rfl]
  exact ⟨rfl, rfl, by simp [eventCalendar, huid], rfl, rfl, rfl⟩

/-- C4: every document produced by the single-event serializer contains
exactly one event entry (one "BEGIN:VEVENT" line), a duration of zero
("DURATION:PT0S", and duration field 0), and transparency "TRANSPARENT";
the serializer's output is exactly the serialization of this one-event
calendar.  The assignment expander and the course-start builder produce
all their documents through this serializer. -/
theorem serialized_document_single_event (uid title description : String)
    (now start : Datetime) (organizer_name organizer_email : String) :
    (eventCalendar uid title description now start organizer_name organizer_email).lines.count
        "BEGIN:VEVENT" = 1
    ∧ "DURATION:PT0S"
        ∈ (eventCalendar uid title description now start organizer_name organizer_email).lines
    ∧ "TRANSP:TRANSPARENT"
        ∈ (eventCalendar uid title description now start organizer_name organizer_email).lines
    ∧ (eventCalendar uid title description now start organizer_name organizer_email).components.map
        Event.duration = [0]
    ∧ (eventCalendar uid title description now start organizer_name organizer_email).components.map
        Event.transp = ["TRANSPARENT"]
    ∧ generate_ics_for_event uid title description now start organizer_name organizer_email
        = (eventCalendar uid title description now start organizer_name organizer_email).to_ical := by
  refine ⟨?_, ?_, ?_, rfl, rfl, rfl⟩
  · have h1 := line_ne_begin_vevent "UID:" uid 'U' rfl (by decide)
    have h2 := line_ne_begin_vevent "DTSTAMP:" now.format 'D' rfl (by decide)
    have h3 : "ORGANIZER;CN=" ++ organizer_name ++ ":mailto:" ++ organizer_email
        ≠ "BEGIN:VEVENT" := by
      apply ne_of_firstChar
      have h : firstChar "ORGANIZER;CN=" = some 'O' := rfl
      simp [firstChar_append, h]
      decide
    have h4 := line_ne_begin_vevent "SUMMARY:" title 'S' rfl (by decide)
    have h5 := line_ne_begin_vevent "DESCRIPTION:" description 'D' rfl (by decide)
    have h6 := line_ne_begin_vevent "DTSTART:" start.format 'D' rfl (by decide)
    have h7 : "DURATION:PT" ++ toString (0 : Nat) ++ "S" ≠ "BEGIN:VEVENT" := by
      apply ne_of_firstChar
      have h : firstChar "DURATION:PT" = some 'D' := rfl
      simp [firstChar_append, h]
      decide
    simp [eventCalendar, Calendar.lines, Event.lines, List.count_cons, List.count_append,
      h1, h2, h3, h4, h5, h6, h7]
  · have hdur : "DURATION:PT" ++ toString (0 : Nat) ++ "S" = "DURATION:PT0S" := by decide
    simp [eventCalendar, Calendar.lines, Event.lines, hdur]
  · simp [eventCalendar, Calendar.lines, Event.lines]

/-- C5: in one call of the assignment expander, the single captured
creation timestamp `now` is the dtstamp of every event in the batch:
every yielded document is serialized with that one `now`, so any two
documents from the same call carry an identical creation timestamp. -/
theorem assignments_share_creation_timestamp (course : Course) (user : User)
    (request : Request) (assignments : List Assignment)
    (platform_name platform_email : String) (now : Datetime) (d : String)
    (h : d ∈ generate_ics_for_course_assignments course user request assignments
        platform_name platform_email now) :
    ∃ uid title description start,
      d = generate_ics_for_event uid title description now start platform_name platform_email
      ∧ (eventCalendar uid title description now start
          platform_name platform_email).components.map Event.dtstamp = [now] := by
  rcases List.mem_map.mp h with ⟨a, -, rfl⟩
  exact ⟨_, _, _, _, rfl, rfl⟩

/-- Witness for C5: the single document of a one-assignment batch carries
the batch's captured timestamp. -/
theorem assignments_share_creation_timestamp_witness :
    (generate_ics_for_event (get_calendar_event_id 42 "block-v1:abc" "due" "example.org")
        "HW1" ("HW1" ++ " is due for " ++ "CS 101" ++ ".") ⟨2024, 2, 1, 0, 0, 0⟩
        ⟨2024, 3, 1, 0, 0, 0⟩ "Open edX" "registration@example.org"
      ∈ generate_ics_for_course_assignments
        ⟨"course-v1:edX+CS101+2024", "CS 101", ⟨2024, 1, 10, 0, 0, 0⟩⟩
        ⟨42⟩ ⟨"example.org"⟩
        [⟨"HW1", ⟨2024, 3, 1, 0, 0, 0⟩, "block-v1:abc"⟩]
        "Open edX" "registration@example.org" ⟨2024, 2, 1, 0, 0, 0⟩)
    ∧ ∃ uid title description start,
        generate_ics_for_event (get_calendar_event_id 42 "block-v1:abc" "due" "example.org")
            "HW1" ("HW1" ++ " is due for " ++ "CS 101" ++ ".") ⟨2024, 2, 1, 0, 0, 0⟩
            ⟨2024, 3, 1, 0, 0, 0⟩ "Open edX" "registration@example.org"
          = generate_ics_for_event uid title description ⟨2024, 2, 1, 0, 0, 0⟩ start
              "Open edX" "registration@example.org"
        ∧ (eventCalendar uid title description ⟨2024, 2, 1, 0, 0, 0⟩ start
            "Open edX" "registration@example.org").components.map Event.dtstamp
          = [⟨2024, 2, 1, 0, 0, 0⟩] := by
  have hmem : generate_ics_for_event (get_calendar_event_id 42 "block-v1:abc" "due" "example.org")
      "HW1" ("HW1" ++ " is due for " ++ "CS 101" ++ ".") ⟨2024, 2, 1, 0, 0, 0⟩
      ⟨2024, 3, 1, 0, 0, 0⟩ "Open edX" "registration@example.org"
      ∈ generate_ics_for_course_assignments
        ⟨"course-v1:edX+CS101+2024", "CS 101", ⟨2024, 1, 10, 0, 0, 0⟩⟩
        ⟨42⟩ ⟨"example.org"⟩
        [⟨"HW1", ⟨2024, 3, 1, 0, 0, 0⟩, "block-v1:abc"⟩]
        "Open edX" "registration@example.org" ⟨2024, 2, 1, 0, 0, 0⟩ :=
    List.Mem.head _
  exact ⟨hmem, assignments_share_creation_timestamp _ _ _ _ _ _ _ _ hmem⟩

/-- C6: the single-event serializer is deterministic: with all inputs
equal the outputs are byte-identical (in particular when the creation
timestamps also agree), and two calls identical in everything except the
creation timestamp yield documents of the same length that agree on every
line except the DTSTAMP line (index 6), which holds each call's own
timestamp. -/
theorem event_serializer_deterministic
    (uid uid' title title' description description' : String)
    (now now' start start' : Datetime) (organizer_name organizer_name'
    organizer_email organizer_email' : String)
    (h1 : uid = uid') (h2 : title = title') (h3 : description = description')
    (h4 : start = start') (h5 : organizer_name = organizer_name')
    (h6 : organizer_email = organizer_email') :
    (now = now' →
      generate_ics_for_event uid title description now start organizer_name organizer_email
        = generate_ics_for_event uid' title' description' now' start'
            organizer_name' organizer_email')
    ∧ ((eventCalendar uid title description now start organizer_name
          organizer_email).lines).length
        = ((eventCalendar uid' title' description' now' start' organizer_name'
            organizer_email').lines).length
    ∧ ((eventCalendar uid title description now start organizer_name
          organizer_email).lines).eraseIdx 6
        = ((eventCalendar uid' title' description' now' start' organizer_name'
            organizer_email').lines).eraseIdx 6
    ∧ ((eventCalendar uid title description now start organizer_name
          organizer_email).lines)[6]? = some ("DTSTAMP:" ++ now.format)
    ∧ ((eventCalendar uid' title' description' now' start' organizer_name'
          organizer_email').lines)[6]? = some ("DTSTAMP:" ++ now'.format) := by
  subst h1 h2 h3 h4 h5 h6
  exact ⟨fun h => by rw [h], rfl, rfl, rfl, rfl⟩

/-- Witness for C6: two serializations with the same inputs except the
timestamp agree everywhere but on the DTSTAMP line. -/
theorem event_serializer_deterministic_witness :
    (( ⟨2024, 2, 1, 0, 0, 0⟩ : Datetime) = ⟨2025, 6, 2, 3, 4, 5⟩ →
      generate_ics_for_event "uid1" "HW1" "desc" ⟨2024, 2, 1, 0, 0, 0⟩
          ⟨2024, 3, 1, 0, 0, 0⟩ "Open edX" "registration@example.org"
        = generate_ics_for_event "uid1" "HW1" "desc" ⟨2025, 6, 2, 3, 4, 5⟩
            ⟨2024, 3, 1, 0, 0, 0⟩ "Open edX" "registration@example.org")
    ∧ ((eventCalendar "uid1" "HW1" "desc" ⟨2024, 2, 1, 0, 0, 0⟩ ⟨2024, 3, 1, 0, 0, 0⟩
          "Open edX" "registration@example.org").lines).length
        = ((eventCalendar "uid1" "HW1" "desc" ⟨2025, 6, 2, 3, 4, 5⟩ ⟨2024, 3, 1, 0, 0, 0⟩
            "Open edX" "registration@example.org").lines).length
    ∧ ((eventCalendar "uid1" "HW1" "desc" ⟨2024, 2, 1, 0, 0, 0⟩ ⟨2024, 3, 1, 0, 0, 0⟩
          "Open edX" "registration@example.org").lines).eraseIdx 6
        = ((eventCalendar "uid1" "HW1" "desc" ⟨2025, 6, 2, 3, 4, 5⟩ ⟨2024, 3, 1, 0, 0, 0⟩
            "Open edX" "registration@example.org").lines).eraseIdx 6
    ∧ ((eventCalendar "uid1" "HW1" "desc" ⟨2024, 2, 1, 0, 0, 0⟩ ⟨2024, 3, 1, 0, 0, 0⟩
          "Open edX" "registration@example.org").lines)[6]?
        = some ("DTSTAMP:" ++ Datetime.format ⟨2024, 2, 1, 0, 0, 0⟩)
    ∧ ((eventCalendar "uid1" "HW1" "desc" ⟨2025, 6, 2, 3, 4, 5⟩ ⟨2024, 3, 1, 0, 0, 0⟩
          "Open edX" "registration@example.org").lines)[6]?
        = some ("DTSTAMP:" ++ Datetime.format ⟨2025, 6, 2, 3, 4, 5⟩) :=
  event_serializer_deterministic "uid1" "uid1" "HW1" "HW1" "desc" "desc"
    ⟨2024, 2, 1, 0, 0, 0⟩ ⟨2025, 6, 2, 3, 4, 5⟩ ⟨2024, 3, 1, 0, 0, 0⟩ ⟨2024, 3, 1, 0, 0, 0⟩
    "Open edX" "Open edX" "registration@example.org" "registration@example.org"
    rfl rfl rfl rfl rfl rfl

/-- C7: for every resolved assignment list with N elements the expander
yields exactly N documents, the empty sequence when N = 0, in the same
order as the list (it is exactly the element-wise serialization of the
list) — all unconditionally; and when the block references are pairwise
distinct the N documents carry pairwise distinct identifiers. -/
theorem assignment_expander_count_order_distinct (course : Course) (user : User)
    (request : Request) (assignments : List Assignment)
    (platform_name platform_email : String) (now : Datetime) :
    (generate_ics_for_course_assignments course user request assignments
        platform_name platform_email now).length = assignments.length
    ∧ (assignments = [] → generate_ics_for_course_assignments course user request assignments
        platform_name platform_email now = [])
    ∧ generate_ics_for_course_assignments course user request assignments
        platform_name platform_email now
      = assignments.map (fun assignment => generate_ics_for_event
          (get_calendar_event_id user.id assignment.block_key "due" request.site_domain)
          assignment.title
          (assignment.title ++ " is due for " ++ course.display_name_with_default ++ ".")
          now assignment.date platform_name platform_email)
    ∧ ((assignments.map Assignment.block_key).Pairwise (· ≠ ·) →
        (assignments.map (fun assignment =>
          get_calendar_event_id user.id assignment.block_key "due"
            request.site_domain)).Pairwise (· ≠ ·)) := by
  refine ⟨by simp [generate_ics_for_course_assignments],
    fun h => by simp [h, generate_ics_for_course_assignments], rfl, fun hkeys => ?_⟩
  rw [List.pairwise_map] at hkeys ⊢
  exact hkeys.imp fun hne h => hne (eventId_cancel_block _ _ _ _ _ h)

/-- Witness for C7: a two-assignment batch yields two documents in list
order; the empty batch yields the empty sequence; the two block keys are
distinct and the two identifiers are distinct. -/
theorem assignment_expander_count_order_distinct_witness :
    (generate_ics_for_course_assignments
          ⟨"course-v1:edX+CS101+2024", "CS 101", ⟨2024, 1, 10, 0, 0, 0⟩⟩
          ⟨42⟩ ⟨"example.org"⟩
          [⟨"HW1", ⟨2024, 3, 1, 0, 0, 0⟩, "block-v1:abc"⟩,
           ⟨"HW2", ⟨2024, 4, 1, 0, 0, 0⟩, "block-v1:def"⟩]
          "Open edX" "registration@example.org" ⟨2024, 2, 1, 0, 0, 0⟩).length
        = ([⟨"HW1", ⟨2024, 3, 1, 0, 0, 0⟩, "block-v1:abc"⟩,
            ⟨"HW2", ⟨2024, 4, 1, 0, 0, 0⟩, "block-v1:def"⟩] : List Assignment).length
    ∧ generate_ics_for_course_assignments
          ⟨"course-v1:edX+CS101+2024", "CS 101", ⟨2024, 1, 10, 0, 0, 0⟩⟩
          ⟨42⟩ ⟨"example.org"⟩ []
          "Open edX" "registration@example.org" ⟨2024, 2, 1, 0, 0, 0⟩ = []
    ∧ generate_ics_for_course_assignments
          ⟨"course-v1:edX+CS101+2024", "CS 101", ⟨2024, 1, 10, 0, 0, 0⟩⟩
          ⟨42⟩ ⟨"example.org"⟩
          [⟨"HW1", ⟨2024, 3, 1, 0, 0, 0⟩, "block-v1:abc"⟩,
           ⟨"HW2", ⟨2024, 4, 1, 0, 0, 0⟩, "block-v1:def"⟩]
          "Open edX" "registration@example.org" ⟨2024, 2, 1, 0, 0, 0⟩
        = ([⟨"HW1", ⟨2024, 3, 1, 0, 0, 0⟩, "block-v1:abc"⟩,
            ⟨"HW2", ⟨2024, 4, 1, 0, 0, 0⟩, "block-v1:def"⟩] : List Assignment).map
            (fun assignment => generate_ics_for_event
              (get_calendar_event_id 42 assignment.block_key "due" "example.org")
              assignment.title
              (assignment.title ++ " is due for " ++ "CS 101" ++ ".")
              ⟨2024, 2, 1, 0, 0, 0⟩ assignment.date
              "Open edX" "registration@example.org")
    ∧ (([⟨"HW1", ⟨2024, 3, 1, 0, 0, 0⟩, "block-v1:abc"⟩,
         ⟨"HW2", ⟨2024, 4, 1, 0, 0, 0⟩, "block-v1:def"⟩] : List Assignment).map
          Assignment.block_key).Pairwise (· ≠ ·)
    ∧ (([⟨"HW1", ⟨2024, 3, 1, 0, 0, 0⟩, "block-v1:abc"⟩,
         ⟨"HW2", ⟨2024, 4, 1, 0, 0, 0⟩, "block-v1:def"⟩] : List Assignment).map
          (fun assignment =>
            get_calendar_event_id 42 assignment.block_key "due"
              "example.org")).Pairwise (· ≠ ·) :=
  ⟨(assignment_expander_count_order_distinct
      ⟨"course-v1:edX+CS101+2024", "CS 101", ⟨2024, 1, 10, 0, 0, 0⟩⟩
      ⟨42⟩ ⟨"example.org"⟩
      [⟨"HW1", ⟨2024, 3, 1, 0, 0, 0⟩, "block-v1:abc"⟩,
       ⟨"HW2", ⟨2024, 4, 1, 0, 0, 0⟩, "block-v1:def"⟩]
      "Open edX" "registration@example.org" ⟨2024, 2, 1, 0, 0, 0⟩).1,
   (assignment_expander_count_order_distinct
      ⟨"course-v1:edX+CS101+2024", "CS 101", ⟨2024, 1, 10, 0, 0, 0⟩⟩
      ⟨42⟩ ⟨"example.org"⟩ []
      "Open edX" "registration@example.org" ⟨2024, 2, 1, 0, 0, 0⟩).2.1 rfl,
   (assignment_expander_count_order_distinct
      ⟨"course-v1:edX+CS101+2024", "CS 101", ⟨2024, 1, 10, 0, 0, 0⟩⟩
      ⟨42⟩ ⟨"example.org"⟩
      [⟨"HW1", ⟨2024, 3, 1, 0, 0, 0⟩, "block-v1:abc"⟩,
       ⟨"HW2", ⟨2024, 4, 1, 0, 0, 0⟩, "block-v1:def"⟩]
      "Open edX" "registration@example.org" ⟨2024, 2, 1, 0, 0, 0⟩).2.2.1,
   by decide,
   (assignment_expander_count_order_distinct
      ⟨"course-v1:edX+CS101+2024", "CS 101", ⟨2024, 1, 10, 0, 0, 0⟩⟩
      ⟨42⟩ ⟨"example.org"⟩
      [⟨"HW1", ⟨2024, 3, 1, 0, 0, 0⟩, "block-v1:abc"⟩,
       ⟨"HW2", ⟨2024, 4, 1, 0, 0, 0⟩, "block-v1:def"⟩]
      "Open edX" "registration@example.org" ⟨2024, 2, 1, 0, 0, 0⟩).2.2.2 (by decide)⟩

/-- C10: the course-start builder stamps its single event with the
captured current-UTC-time argument as the creation timestamp, through
the same mechanism as the assignment expander (one call to the
single-event serializer with the captured `now`): the serialized
document's DTSTAMP line (index 6) holds that timestamp. -/
theorem course_start_uses_captured_now (course : Course) (request : Request)
    (platform_name platform_email : String) (now : Datetime) :
    generate_ics_for_course_start course request platform_name platform_email now
      = generate_ics_for_event (get_calendar_event_id 0 course.id "start" request.site_domain)
          (course.display_name_with_default ++ " Begins") "" now course.start_date
          platform_name platform_email
    ∧ (eventCalendar (get_calendar_event_id 0 course.id "start" request.site_domain)
        (course.display_name_with_default ++ " Begins") "" now course.start_date
        platform_name platform_email).components.map Event.dtstamp = [now]
    ∧ ((eventCalendar (get_calendar_event_id 0 course.id "start" request.site_domain)
        (course.display_name_with_default ++ " Begins") "" now course.start_date
        platform_name platform_email).lines)[6]? = some ("DTSTAMP:" ++ now.format) :=
  ⟨rfl, rfl, rfl⟩

end CalendarSync
